import Mathlib

/-!
# docanalyzer-pro: the document dispatcher and its raster-image pipeline

A shallow embedding of `src/cpp/main.cpp`.  Every function of the source is a
Lean function of the same name.  The external collaborators it calls (the file
system, OpenCV, Tesseract, Poppler) appear as

* a `World`: the files on disk, and the trace of what the program wrote to
  `stderr` and of what it handed to the OCR engine and to the PDF reader;
* an `Env` of oracles for the library calls whose results the program does not
  determine (interpolation, colour conversion, the Gaussian local mean, the OCR
  engine's answer at each attempt, `std::filesystem::path::extension`).

A `std::string` is a Lean `String` holding UTF-8 text, and `std::string::length`
is its number of bytes, `String.utf8ByteSize`.  The C++ `int` confidences are
only ever compared, so they are integers.

A C++ exception is raised in five places.  Three are inside the `try` of `main`, which
catches them: `cv::resize` when its oracle says so, Poppler when reading a page raises, and
`cv::imwrite` when it is given the empty `Mat` of a failed `cv::imread`.  Two are outside it,
and end the process without any output: `fs::exists` (line 178) when `stat` fails, and
`fs::create_directories("output")` (line 184) when a file that is no directory stands at
`output` or the directory cannot be made.
-/

namespace DocAnalyzer

/-! ## Images -/

/-- A decoded `cv::Mat`, as the list of its rows; each row lists its pixels. -/
abbrev Mat (α : Type) := List (List α)

/-- A three-channel 8-bit pixel: blue, green, red. -/
abbrev BGR := Nat × Nat × Nat

/-- An image file on disk, with the channel layout it was written with. -/
inductive ImageFile
  | gray (m : Mat Nat)
  | colour (m : Mat BGR)
  deriving DecidableEq

/-- What `cv::imread` with its default flag (`IMREAD_COLOR`) decodes an image file
to: always three channels, a one-channel file having its value in each. -/
def ImageFile.toBGR : ImageFile → Mat BGR
  | .gray m => m.map fun row => row.map fun v => (v, v, v)
  | .colour m => m

/-- Number of rows of a matrix. -/
def Mat.rows {α : Type} (m : Mat α) : Nat := m.length

/-- Number of columns of a matrix (the length of its first row). -/
def Mat.cols {α : Type} (m : Mat α) : Nat := (m.headD []).length

/-- The pixel at row `i`, column `j`; `d` outside the matrix. -/
def Mat.px {α : Type} (m : Mat α) (d : α) (i j : Nat) : α := (m.getD i []).getD j d

/-- The call `cv::rotate(src, dst, cv::ROTATE_90_CLOCKWISE)`: `dst` has `src.cols` rows
and `src.rows` columns, and `dst(i, j) = src(src.rows - 1 - j, i)`. -/
def rotateCW {α : Type} [Inhabited α] (src : Mat α) : Mat α :=
  (List.range src.cols).map fun i =>
    (List.range src.rows).map fun j => src.px default (src.rows - 1 - j) i

/-! ## Files, trace, world -/

/-- One page of a PDF as Poppler serves it. -/
inductive PdfPage
  /-- The call `doc->create_page(i)` returned a null pointer. -/
  | absent
  /-- The page exists and `p->text().to_utf8()` is this text. -/
  | text (utf8 : String)
  /-- Reading the page raises a C++ exception. -/
  | raises
  deriving DecidableEq

/-- The content of a file on disk. -/
inductive FileData
  /-- A file that `cv::imread` decodes. -/
  | image (img : ImageFile)
  /-- A file that `poppler::document::load_from_file` loads. -/
  | pdf (pages : List PdfPage)
  /-- Any other regular file: it exists, and neither library reads it. -/
  | other
  /-- A directory. -/
  | directory
  deriving DecidableEq

/-- What the program does that is visible from outside, besides writing files. -/
inductive Event
  /-- A line written to `stderr`. -/
  | stderr (line : String)
  /-- A call of `run_tesseract`: the path it is given and the file found there. -/
  | ocr (image_path : String) (file : Option FileData)
  /-- A call of `poppler::document::load_from_file`. -/
  | pdfLoad (filepath : String)
  deriving DecidableEq

/-- The state outside the program. -/
structure World where
  /-- The files on disk by path; `none` where there is no file. -/
  disk : String → Option FileData
  /-- The events so far, oldest first. -/
  trace : List Event

/-- What the OCR engine does at one attempt. -/
inductive Tess
  /-- The call `api->Init(NULL, "eng")` returned non-zero. -/
  | initFailed
  /-- The call `pixRead` returned a null pointer. -/
  | readFailed
  /-- The engine ran: `GetUTF8Text()` (null is `none`) and `MeanTextConf()`. -/
  | recognised (outText : Option String) (meanTextConf : Int)
  deriving DecidableEq

/-- The library calls whose results the program does not determine. -/
structure Env where
  /-- The call `fs::path(p).extension().string()`. -/
  extension : String → String
  /-- The call `cv::resize(img, img, cv::Size(), 3.0, 3.0, cv::INTER_CUBIC)`; `none` when it
  raises a `cv::Exception`. -/
  resize : Mat BGR → Option (Mat BGR)
  /-- The value `cv::cvtColor(..., cv::COLOR_BGR2GRAY)` gives one pixel. -/
  cvtGray : BGR → Nat
  /-- The Gaussian-weighted mean of the 31×31 neighbourhood of the pixel at the given row
  and column, as `cv::adaptiveThreshold` computes it. -/
  gaussMean : Mat Nat → Nat → Nat → Nat
  /-- The OCR engine's behaviour at the attempt of the given index (0 to 3). -/
  tess : Nat → Tess
  /-- Whether `stat` fails on the path with an error other than "no such file", as it does
  for a name of more than 255 bytes: `fs::exists` then raises a `filesystem_error`. -/
  statError : String → Bool
  /-- Whether making a directory at the path fails (no permission, a read-only file system):
  `fs::create_directories` then raises a `filesystem_error`. -/
  mkdirError : String → Bool

/-- The one kind of C++ exception the model tells apart: something was thrown. -/
inductive CppException
  | thrown
  deriving DecidableEq

/-- The call `fs::exists(p)`, the overload that raises: whether something stands at `p`, or
the `filesystem_error` of a failing `stat`. -/
def fsExists (env : Env) (w : World) (p : String) : Except CppException Bool :=
  if env.statError p then .error .thrown else .ok (w.disk p).isSome

/-- The call `fs::create_directories(p)`, the overload that raises, for a path of one
component: nothing to do when a directory stands at `p`; a `filesystem_error` when something
else stands there or the directory cannot be made; else the directory is made. -/
def create_directories (env : Env) (w : World) (p : String) : Except CppException World :=
  match w.disk p with
  | some .directory => .ok w
  | some _ => .error .thrown
  | none =>
    if env.mkdirError p then .error .thrown
    else .ok { w with disk := fun q => if q = p then some .directory else w.disk q }

/-- The call `cv::imread(path)`: the decoded image, or `none` for the empty `Mat` it
returns when there is no image file at `path`. -/
def imread (w : World) (path : String) : Option (Mat BGR) :=
  match w.disk path with
  | some (.image img) => some img.toBGR
  | _ => none

/-- The call `cv::imwrite(path, img)` for a non-empty `img`. -/
def imwrite (w : World) (path : String) (img : ImageFile) : World :=
  { w with disk := fun p => if p = path then some (.image img) else w.disk p }

/-! ## `main.cpp` -/

/-- The function `log` (lines 20-22). -/
def log (msg : String) (w : World) : World :=
  { w with trace := w.trace ++ [Event.stderr ("[CPP-DEBUG] " ++ msg)] }

/-- The call `cv::adaptiveThreshold(gray, binary, 255, ADAPTIVE_THRESH_GAUSSIAN_C,
THRESH_BINARY, 31, 15)`: a pixel becomes 255 when it exceeds its local mean minus 15,
and 0 otherwise. -/
def adaptiveThreshold (mean : Nat → Nat → Nat) (src : Mat Nat) : Mat Nat :=
  src.mapIdx fun y row => row.mapIdx fun x (v : Nat) =>
    if (v : Int) - (mean y x : Int) > -15 then 255 else 0

/-- The pixel `dy` rows up and `dx` columns left of `(y, x)`; outside the image the border
value of an erosion, which never lowers a minimum of 8-bit pixels. -/
def erodeTap (src : Mat Nat) (y x dy dx : Nat) : Nat :=
  if dy ≤ y ∧ dx ≤ x then src.px 255 (y - dy) (x - dx) else 255

/-- The call `cv::erode(binary, binary, kernel)` with the 2×2 rectangle of
`cv::getStructuringElement(cv::MORPH_RECT, cv::Size(2, 2))`, whose anchor is its
centre `(1, 1)`: the minimum over the pixel, its left, upper and upper-left neighbours. -/
def erode (src : Mat Nat) : Mat Nat :=
  src.mapIdx fun y row => row.mapIdx fun x _ =>
    min (min (erodeTap src y x 1 1) (erodeTap src y x 1 0))
        (min (erodeTap src y x 0 1) (erodeTap src y x 0 0))

/-- The function `preprocess_image` (lines 25-63).  `cv::imread` always decodes to three
channels, so the `img.channels() == 3` branch is the one taken.  Line 59 repeats the
`fs::create_directories("output")` of line 184, which has made the directory when `main` gets
here; it changes nothing then and is left out. -/
def preprocess_image (env : Env) (filepath : String) (w : World) :
    Except CppException String × World :=
  let w := log ("Processing image: " ++ filepath) w
  match imread w filepath with
  | none => (.ok "", log "ERROR: Could not read image file" w)
  | some img =>
    match env.resize img with
    | none => (.error .thrown, w)
    | some img =>
      let gray : Mat Nat := img.map fun row => row.map env.cvtGray
      let binary := adaptiveThreshold (env.gaussMean gray) gray
      let binary := erode binary
      let temp_path := "output/temp_processed.png"
      let w := imwrite w temp_path (.gray binary)
      let w := log ("Saved preprocessed image to: " ++ temp_path) w
      (.ok temp_path, w)

/-- The function `rotate_90` (lines 66-72). -/
def rotate_90 (input_path output_path : String) (w : World) : World :=
  match imread w input_path with
  | none => w
  | some src => imwrite w output_path (.colour (rotateCW src))

/-- The text of the pages that exist, each followed by a newline, or `none` when reading a
page raises (the loop of `extract_pdf`, lines 81-89). -/
def pdfText : List PdfPage → Option String
  | [] => some ""
  | .absent :: rest => pdfText rest
  | .text utf8 :: rest => (pdfText rest).map fun full_text => utf8 ++ "\n" ++ full_text
  | .raises :: _ => none

/-- The function `extract_pdf` (lines 76-92). -/
def extract_pdf (filepath : String) (w : World) : Except CppException String × World :=
  let w := { w with trace := w.trace ++ [Event.pdfLoad filepath] }
  match w.disk filepath with
  | some (.pdf pages) =>
    match pdfText pages with
    | some full_text => (.ok full_text, w)
    | none => (.error .thrown, w)
  | _ => (.ok "", w)

/-- The function `run_tesseract` (lines 94-124): the returned text and the value left in
`*confidence_out`, which the two early returns do not touch. -/
def run_tesseract (engine : Tess) (image_path : String) (confidence_out : Int) (w : World) :
    (String × Int) × World :=
  let w := { w with trace := w.trace ++ [Event.ocr image_path (w.disk image_path)] }
  match engine with
  | .initFailed => (("", confidence_out), log "ERROR: Tesseract Init failed." w)
  | .readFailed => (("", confidence_out), w)
  | .recognised outText meanTextConf => ((outText.getD "", meanTextConf), w)

/-- One entry of `debug_info["rotations"]`. -/
structure RotationJson where
  path : Option String := none
  conf : Option Int := none
  deriving DecidableEq

/-- The JSON value `debug_info`; the null value it starts as has no entries. -/
structure DebugInfo where
  rotations : List (String × RotationJson) := []
  best_image : Option String := none
  deriving DecidableEq

/-- The assignment `rotations[key][...] = ...`: the entry of `key` is created when
absent and changed by `f`. -/
def setRotation (key : String) (f : RotationJson → RotationJson) :
    List (String × RotationJson) → List (String × RotationJson)
  | [] => [(key, f {})]
  | (k, v) :: rest =>
    if k = key then (k, f v) :: rest else (k, v) :: setRotation key f rest

/-- The entry of `debug_info["rotations"]` under `key`. -/
def DebugInfo.rotation (d : DebugInfo) (key : String) : Option RotationJson :=
  (d.rotations.find? fun kv => kv.1 = key).map Prod.snd

/-- The array `rot_names` (line 136). -/
def rot_names : List String := ["0_deg", "90_deg", "180_deg", "270_deg"]

/-- The value of `current_rot_path` in iteration `i` (line 140). -/
def current_rot_path (i : Nat) : String := "output/debug_" ++ rot_names.getD i "" ++ ".png"

/-- The variables of `extract_image_ocr` that its loop changes, with the world and whether
an exception has left the loop. -/
structure LoopState where
  w : World
  debug_info : DebugInfo
  best_text : String
  best_conf : Int
  best_img : String
  raised : Bool

/-- One iteration of the rotation loop (lines 138-165).  `cv::imwrite` of the empty `Mat`
that a failed `cv::imread` returns raises a `cv::Exception`. -/
def iteration (env : Env) (current_image : String) (s : LoopState) (i : Nat) : LoopState :=
  if s.raised then s else
  let w := if i = 0 then s.w else rotate_90 current_image current_image s.w
  match imread w current_image with
  | none => { s with w := w, raised := true }
  | some temp =>
    let w := imwrite w (current_rot_path i) (.colour temp)
    let conf : Int := 0
    let ((text, conf), w) := run_tesseract (env.tess i) current_image conf w
    let rotations := setRotation (rot_names.getD i "")
      (fun r => { r with path := some (current_rot_path i) }) s.debug_info.rotations
    let rotations := setRotation (rot_names.getD i "")
      (fun r => { r with conf := some conf }) rotations
    let debug_info := { s.debug_info with rotations := rotations }
    if conf > s.best_conf ∧ text.utf8ByteSize > 20 then
      { w := w, debug_info := debug_info, best_text := text, best_conf := conf,
        best_img := current_rot_path i, raised := false }
    else
      { s with w := w, debug_info := debug_info }

/-- The function `extract_image_ocr` (lines 126-171): what it returns or that it raised,
with `debug_info` and the world as it leaves them. -/
def extract_image_ocr (env : Env) (filepath : String) (debug_info : DebugInfo) (w : World) :
    Except CppException String × DebugInfo × World :=
  match preprocess_image env filepath w with
  | (.error e, w) => (.error e, debug_info, w)
  | (.ok current_image, w) =>
    if current_image = "" then (.ok "", debug_info, w) else
    let s : LoopState :=
      { w := w, debug_info := debug_info, best_text := "", best_conf := -1, best_img := "",
        raised := false }
    let s := [0, 1, 2, 3].foldl (iteration env current_image) s
    if s.raised then (.error .thrown, s.debug_info, s.w) else
    let debug_info :=
      if s.best_img ≠ "" then { s.debug_info with best_image := some s.best_img }
      else { s.debug_info with best_image := some "output/debug_0_deg.png" }
    (.ok s.best_text, debug_info, s.w)

/-- The function `::tolower` in the "C" locale, which the program never changes. -/
def tolower (c : Char) : Char :=
  if 'A' ≤ c ∧ c ≤ 'Z' then Char.ofNat (c.toNat + 32) else c

/-- A value stored under a key of the JSON object that `main` prints. -/
inductive JsonValue
  | str (s : String)
  | debug (d : DebugInfo)
  deriving DecidableEq

/-- The JSON object that `main` prints, as its keys and values. -/
abbrev Json := List (String × JsonValue)

/-- The value under `key`. -/
def Json.field (j : Json) (key : String) : Option JsonValue :=
  (j.find? fun kv => kv.1 = key).map Prod.snd

/-- What a run of `main` leaves: the exit code (`none` when an uncaught exception ended the
process through `std::terminate`), what it printed to `stdout`, the world. -/
structure Run where
  exit_code : Option Int
  stdout : Option Json
  w : World

/-- The function `main` (lines 174-212); `argv` starts with the program's name.  The calls
of lines 178 and 184 are outside the `try`: when one raises, the process ends there. -/
def main (env : Env) (argv : List String) (w : World) : Run :=
  match argv with
  | [] => { exit_code := some 1, stdout := none, w := w }
  | [_] => { exit_code := some 1, stdout := none, w := w }
  | _ :: file_path :: _ =>
    match fsExists env w file_path with
    | .error _ => { exit_code := none, stdout := none, w := w }
    | .ok false =>
      { exit_code := some 1, stdout := some [("status", .str "error")], w := w }
    | .ok true =>
      match create_directories env w "output" with
      | .error _ => { exit_code := none, stdout := none, w := w }
      | .ok w =>
        let extension := String.mk ((env.extension file_path).data.map tolower)
        let debug_info : DebugInfo := {}
        let (method, result, debug_info, w) :=
          if extension = ".pdf" then
            let (r, w) := extract_pdf file_path w
            ("PDF_POPPLER", r, debug_info, w)
          else
            let (r, debug_info, w) := extract_image_ocr env file_path debug_info w
            ("OCR_THICKENED", r, debug_info, w)
        let extracted_text :=
          match result with
          | .ok text => text
          | .error _ => ""
        { exit_code := some 0,
          stdout := some [("status", .str "success"), ("method", .str method),
            ("content", .str extracted_text), ("filepath", .str file_path),
            ("debug", .debug debug_info)],
          w := w }

/-! ## Notions the statements below use -/

/-- The text that `run_tesseract` returns at attempt `i` of the loop, and the value of
`conf` after the call (the caller has set `conf` to 0 before it). -/
def attempt (env : Env) (i : Nat) : String × Int :=
  (run_tesseract (env.tess i) "output/temp_processed.png" 0 ⟨fun _ => none, []⟩).1

/-- The state of the loop of `extract_image_ocr` after its first `n` iterations, in a run
where `preprocess_image` returned its `temp_path`. -/
def stateAfter (env : Env) (filepath : String) (debug_info : DebugInfo) (w : World) (n : Nat) :
    LoopState :=
  (List.range n).foldl (iteration env "output/temp_processed.png")
    { w := (preprocess_image env filepath w).2, debug_info := debug_info, best_text := "",
      best_conf := -1, best_img := "", raised := false }

/-- The image at the working path once iteration `i` has done its rotation step. -/
def turned (i : Nat) (f : ImageFile) : ImageFile :=
  if i = 0 then f else .colour (rotateCW f.toBGR)

/-- The entries of `debug_info["rotations"]` once iteration `i` has recorded its path and
the confidence `conf`. -/
def recorded (i : Nat) (conf : Int) (rotations : List (String × RotationJson)) :
    List (String × RotationJson) :=
  setRotation (rot_names.getD i "") (fun r => { r with conf := some conf })
    (setRotation (rot_names.getD i "") (fun r => { r with path := some (current_rot_path i) })
      rotations)

/-- The best text, confidence and image path once attempt `i` has been considered. -/
def pick (env : Env) (b : String × Int × String) (i : Nat) : String × Int × String :=
  if (attempt env i).2 > b.2.1 ∧ (attempt env i).1.utf8ByteSize > 20 then
    ((attempt env i).1, (attempt env i).2, current_rot_path i)
  else b

/-- The image that `preprocess_image` writes when `cv::resize` has given `img`. -/
def conditioned (env : Env) (img : Mat BGR) : Mat Nat :=
  erode (adaptiveThreshold (env.gaussMean (img.map fun row => row.map env.cvtGray))
    (img.map fun row => row.map env.cvtGray))

/-- The files handed to the OCR engine, in the order of the calls. -/
def ocrInputs (trace : List Event) : List (Option FileData) :=
  trace.filterMap fun e =>
    match e with
    | .ocr _ file => some file
    | _ => none

/-- The paths handed to the PDF reader, in the order of the calls. -/
def pdfLoads (trace : List Event) : List String :=
  trace.filterMap fun e =>
    match e with
    | .pdfLoad filepath => some filepath
    | _ => none

/-- What the run printed under `key`, when that is a string. -/
def Run.printed (r : Run) (key : String) : Option String :=
  match r.stdout with
  | some out =>
    match out.field key with
    | some (.str s) => some s
    | _ => none
  | none => none

/-- Every pixel of the matrix is 0 or 255. -/
def TwoLevel (m : Mat Nat) : Prop := ∀ row ∈ m, ∀ v ∈ row, v = 0 ∨ v = 255

/-- Equality of two strings up to the case of their ASCII letters. -/
def equalsIgnoreCase (a b : String) : Prop :=
  a.data.map Char.toLower = b.data.map Char.toLower

instance (a b : String) : Decidable (equalsIgnoreCase a b) :=
  inferInstanceAs (Decidable (a.data.map Char.toLower = b.data.map Char.toLower))

/-- The text `main` prints as content for what an extractor returned or raised. -/
def contentOf (r : Except CppException String) : String :=
  match r with
  | .ok text => text
  | .error _ => ""

/-! ## Concrete inputs for the examples -/

/-- The last component of a POSIX path. -/
def fileName (p : List Char) : List Char := (p.reverse.takeWhile fun c => c ≠ '/').reverse

/-- The extension `std::filesystem::path::extension` gives a POSIX path: from the last dot
of the file name on, and empty when the name has no dot, is `..`, or has its only dot first. -/
def stdExtension (p : String) : String :=
  let name := fileName p.data
  let tail := (name.reverse.takeWhile fun c => c ≠ '.').reverse
  if name = ['.', '.'] ∨ '.' ∉ name ∨ name.length = tail.length + 1 then ""
  else String.mk ('.' :: tail)

/-- The components of a POSIX path, split at its slashes. -/
def components (p : List Char) : List (List Char) :=
  p.foldr (fun c acc =>
    if c = '/' then [] :: acc
    else
      match acc with
      | [] => [[c]]
      | name :: names => (c :: name) :: names) [[]]

/-- Whether a component of the path has more than 255 bytes, the `NAME_MAX` of Linux file
systems: `stat` then fails with `ENAMETOOLONG`. -/
def nameTooLong (p : String) : Bool :=
  (components p.data).any fun name => 255 < (String.mk name).utf8ByteSize

/-- Every pixel three times in each direction: what a ×3 interpolation gives an image made
of uniform blocks, up to the blur at their edges. -/
def upscale3 (img : Mat BGR) : Mat BGR :=
  img.flatMap fun row => List.replicate 3 (row.flatMap fun p => List.replicate 3 p)

/-- The mean of all pixels: the local mean of an image smaller than the 31×31 window, up to
the weights. -/
def wholeMean (gray : Mat Nat) : Nat := gray.flatten.sum / gray.flatten.length

/-- A disk with a two-pixel scan (black, white), a blank white page of one pixel, a PDF and
a text file. -/
def sampleDisk (p : String) : Option FileData :=
  if p = "scan.png" then some (.image (.colour [[(0, 0, 0), (255, 255, 255)]]))
  else if p = "blank.png" then some (.image (.gray [[255]]))
  else if p = "invoice.PDF" then some (.pdf [.text "Total: 42"])
  else if p = "notes.txt" then some .other
  else none

/-- The world before the program starts: `sampleDisk`, nothing traced yet. -/
def sampleWorld : World := { disk := sampleDisk, trace := [] }

/-- The world of `sampleWorld` once the directory `output` has been made. -/
def sampleWorldWithOutput : World :=
  { disk := fun q => if q = "output" then some .directory else sampleDisk q, trace := [] }

/-- The world of `sampleDisk` with a regular file named `output` in the working directory. -/
def blockedWorld : World :=
  { disk := fun p => if p = "output" then some .other else sampleDisk p, trace := [] }

/-- An environment with the given OCR engine behaviour.  Its OpenCV oracles are stand-ins
that agree with OpenCV on the uniform blocks the sample images are made of. -/
def sampleEnv (engine : Nat → Tess) : Env :=
  { extension := stdExtension
    resize := fun img => some (upscale3 img)
    cvtGray := fun p => (1868 * p.1 + 9617 * p.2.1 + 4899 * p.2.2 + 8192) / 16384
    gaussMean := fun gray _ _ => wholeMean gray
    tess := engine
    statError := nameTooLong
    mkdirError := fun _ => false }

/-- A receipt text of 140 bytes. -/
def receiptText : String :=
  "CORNER MARKET 12 MAIN ST MILK 2.49 BREAD 3.10 EGGS 4.25 TOTAL 9.84 CASH 10.00 CHANGE 0.16 THANK YOU FOR SHOPPING WITH US PLEASE COME AGAIN S"

/-- The scan of a receipt turned by 180°: confidences 10, 5, 92, 15 and text lengths
5, 3, 140, 8 at 0°, 90°, 180°, 270°. -/
def receiptEngine : Nat → Tess
  | 0 => .recognised (some "7O7AL") 10
  | 1 => .recognised (some "I|I") 5
  | 2 => .recognised (some receiptText) 92
  | _ => .recognised (some "J|/1O ~E") 15

/-- An engine that reads only short scraps, and fails to start at 270°. -/
def scrapEngine : Nat → Tess
  | 0 => .recognised (some "7O7AL") 96
  | 1 => .recognised none 0
  | 2 => .readFailed
  | _ => .initFailed

/-- An engine that reads a text at 0° and reports confidence -1 at every rotation. -/
def unscoredEngine : Nat → Tess
  | 0 => .recognised (some "TOTAL 9.84 CASH 10.00") (-1)
  | _ => .recognised (some "") (-1)

/-- An engine that reads the upright page best; the page turned by 90° ties with it. -/
def uprightEngine : Nat → Tess
  | 0 => .recognised (some "TOTAL 9.84 CASH 10.00") 88
  | 1 => .recognised (some "IOIAL 9.B4 CA5H 1O.OO") 88
  | 2 => .recognised (some "00.01 HSAC 48.9 LATOT") 41
  | _ => .recognised (some "J|/1O ~E") 15

/-- An engine that reads at 0° a text of 18 characters and 23 bytes, and nothing else. -/
def accentEngine : Nat → Tess
  | 0 => .recognised (some "Thé glacé à 2,50 €") 50
  | _ => .recognised (some "") 0

/-- An engine whose four texts have at most 20 characters each; the one at 0° has 16
characters and 20 bytes, the one at 90° has 19 characters and 23 bytes. -/
def shortAccentEngine : Nat → Tess
  | 0 => .recognised (some "Café crème 3,5 €") 80
  | 1 => .recognised (some "Crêpe sucrée 4,00 €") 60
  | 2 => .recognised (some "I|I") 5
  | _ => .recognised (some "J|/1O ~E") 15

/-- An engine that cannot start at 0° and reads the page at 180°. -/
def lateEngine : Nat → Tess
  | 0 => .initFailed
  | 1 => .readFailed
  | 2 => .recognised (some receiptText) 92
  | _ => .recognised (some "J|/1O ~E") 15

/-! ## Lemmas -/

section Rotation

variable {α : Type} [Inhabited α]

end Rotation

theorem imread_of_disk {w : World} {p : String} {f : ImageFile}
    (h : w.disk p = some (.image f)) : imread w p = some f.toBGR := by
  simp [imread, h]

theorem disk_imwrite_same (w : World) (p : String) (f : ImageFile) :
    (imwrite w p f).disk p = some (.image f) := by
  simp [imwrite]

theorem disk_imwrite_other (w : World) {p q : String} (f : ImageFile) (h : q ≠ p) :
    (imwrite w p f).disk q = w.disk q := by
  simp [imwrite, h]

theorem run_tesseract_fst (o : Tess) (p : String) (c : Int) (w : World) :
    (run_tesseract o p c w).1 =
      (run_tesseract o "output/temp_processed.png" c ⟨fun _ => none, []⟩).1 := by
  cases o <;> rfl

theorem run_tesseract_disk (o : Tess) (p : String) (c : Int) (w : World) :
    (run_tesseract o p c w).2.disk = w.disk := by
  cases o <;> rfl

theorem disk_turn (cur : String) (w : World) (i : Nat) (f : ImageFile)
    (hd : w.disk cur = some (.image f)) :
    (if i = 0 then w else rotate_90 cur cur w).disk cur = some (.image (turned i f)) := by
  by_cases hi : i = 0
  · simp [hi, hd, turned]
  · simp [hi, turned, rotate_90, imread_of_disk hd, disk_imwrite_same]

theorem iteration_eq (env : Env) (cur : String) (s : LoopState) (i : Nat) (f : ImageFile)
    (hr : s.raised = false) (hd : s.w.disk cur = some (.image f)) :
    iteration env cur s i =
      { w := (run_tesseract (env.tess i) cur 0
          (imwrite (if i = 0 then s.w else rotate_90 cur cur s.w) (current_rot_path i)
            (.colour (turned i f).toBGR))).2,
        debug_info :=
          { s.debug_info with rotations := recorded i (attempt env i).2 s.debug_info.rotations },
        best_text :=
          if (attempt env i).2 > s.best_conf ∧ (attempt env i).1.utf8ByteSize > 20 then
            (attempt env i).1 else s.best_text,
        best_conf :=
          if (attempt env i).2 > s.best_conf ∧ (attempt env i).1.utf8ByteSize > 20 then
            (attempt env i).2 else s.best_conf,
        best_img :=
          if (attempt env i).2 > s.best_conf ∧ (attempt env i).1.utf8ByteSize > 20 then
            current_rot_path i else s.best_img,
        raised := false } := by
  have hw := imread_of_disk (disk_turn cur s.w i f hd)
  unfold iteration attempt recorded
  simp only [hr, hw, Bool.false_eq_true, if_false]
  simp only [run_tesseract_fst (env.tess i) cur]
  split_ifs <;> rfl

theorem stateAfter_succ (env : Env) (fp : String) (d : DebugInfo) (w : World) (n : Nat) :
    stateAfter env fp d w (n + 1) =
      iteration env "output/temp_processed.png" (stateAfter env fp d w n) n := by
  simp [stateAfter, List.range_succ, List.foldl_append]

theorem preprocess_ok (env : Env) (fp : String) (w : World) (img big : Mat BGR)
    (h1 : imread w fp = some img) (h2 : env.resize img = some big) :
    preprocess_image env fp w =
      (.ok "output/temp_processed.png",
        log "Saved preprocessed image to: output/temp_processed.png"
          (imwrite (log ("Processing image: " ++ fp) w) "output/temp_processed.png"
            (.gray (conditioned env big)))) := by
  have h1' : imread (log ("Processing image: " ++ fp) w) fp = some img := h1
  unfold preprocess_image
  simp only [h1', h2]
  rfl

theorem preprocess_decoded (env : Env) (fp : String) (w : World)
    (hdec : (preprocess_image env fp w).1 = .ok "output/temp_processed.png") :
    ∃ img big, imread w fp = some img ∧ env.resize img = some big := by
  have key : ∀ o : Option (Mat BGR), imread (log ("Processing image: " ++ fp) w) fp = o →
      imread w fp = o := fun _ h => h
  unfold preprocess_image at hdec
  cases h1 : imread (log ("Processing image: " ++ fp) w) fp with
  | none => simp [h1] at hdec
  | some img =>
    cases h2 : env.resize img with
    | none => simp [h1, h2] at hdec
    | some big => exact ⟨img, big, key _ h1, h2⟩

theorem preprocess_disk (env : Env) (fp : String) (w : World)
    (hdec : (preprocess_image env fp w).1 = .ok "output/temp_processed.png") :
    ∃ B, (preprocess_image env fp w).2.disk "output/temp_processed.png"
      = some (.image (.gray B)) := by
  obtain ⟨img, big, h1, h2⟩ := preprocess_decoded env fp w hdec
  exact ⟨conditioned env big, by rw [preprocess_ok env fp w img big h1 h2]; simp [log, imwrite]⟩

theorem stateAfter_alive (env : Env) (fp : String) (d : DebugInfo) (w : World)
    (hdec : (preprocess_image env fp w).1 = .ok "output/temp_processed.png") (n : Nat) :
    (stateAfter env fp d w n).raised = false ∧
      ∃ f, (stateAfter env fp d w n).w.disk "output/temp_processed.png" = some (.image f) := by
  induction n with
  | zero =>
    obtain ⟨B, hB⟩ := preprocess_disk env fp w hdec
    exact ⟨rfl, _, hB⟩
  | succ n ih =>
    obtain ⟨hr, f, hf⟩ := ih
    rw [stateAfter_succ, iteration_eq env _ _ n f hr hf]
    refine ⟨rfl, ?_⟩
    simp only [run_tesseract_disk]
    by_cases hp : "output/temp_processed.png" = current_rot_path n
    · exact ⟨.colour (turned n f).toBGR, by simp [imwrite, ← hp]⟩
    · exact ⟨_, by rw [disk_imwrite_other _ _ hp]; exact disk_turn _ _ _ _ hf⟩

theorem stateAfter_best (env : Env) (fp : String) (d : DebugInfo) (w : World)
    (hdec : (preprocess_image env fp w).1 = .ok "output/temp_processed.png") (n : Nat) :
    ((stateAfter env fp d w n).best_text, (stateAfter env fp d w n).best_conf,
      (stateAfter env fp d w n).best_img) = (List.range n).foldl (pick env) ("", -1, "") := by
  induction n with
  | zero => rfl
  | succ n ih =>
    obtain ⟨hr, f, hf⟩ := stateAfter_alive env fp d w hdec n
    rw [stateAfter_succ, iteration_eq env _ _ n f hr hf, List.range_succ, List.foldl_append,
      ← ih]
    simp only [List.foldl_cons, List.foldl_nil, pick]
    split_ifs <;> rfl

theorem stateAfter_rotations (env : Env) (fp : String) (d : DebugInfo) (w : World)
    (hdec : (preprocess_image env fp w).1 = .ok "output/temp_processed.png") (n : Nat) :
    (stateAfter env fp d w n).debug_info =
      { d with rotations :=
          (List.range n).foldl (fun r i => recorded i (attempt env i).2 r) d.rotations } := by
  induction n with
  | zero => rfl
  | succ n ih =>
    obtain ⟨hr, f, hf⟩ := stateAfter_alive env fp d w hdec n
    rw [stateAfter_succ, iteration_eq env _ _ n f hr hf, List.range_succ, List.foldl_append, ih]
    rfl

theorem extract_eq (env : Env) (fp : String) (d : DebugInfo) (w : World)
    (hdec : (preprocess_image env fp w).1 = .ok "output/temp_processed.png") :
    extract_image_ocr env fp d w =
      (.ok (stateAfter env fp d w 4).best_text,
        { (stateAfter env fp d w 4).debug_info with
          best_image := some (if (stateAfter env fp d w 4).best_img ≠ "" then
            (stateAfter env fp d w 4).best_img else "output/debug_0_deg.png") },
        (stateAfter env fp d w 4).w) := by
  have hr := (stateAfter_alive env fp d w hdec 4).1
  unfold stateAfter at hr ⊢
  unfold extract_image_ocr
  rcases hpre : preprocess_image env fp w with ⟨r, w1⟩
  rw [hpre] at hdec hr
  simp only at hdec hr
  subst hdec
  have h4 : List.range 4 = [0, 1, 2, 3] := by decide
  rw [h4] at hr ⊢
  simp only [hr]
  split_ifs <;> simp_all

theorem range_four : List.range 4 = [0, 1, 2, 3] := by decide

theorem current_rot_path_ne_empty (i : Nat) : current_rot_path i ≠ "" := by
  intro h
  have h1 := congrArg String.length h
  have h2 : "output/debug_".length = 13 := by decide
  have h3 : "".length = 0 := by decide
  simp only [current_rot_path, String.length_append, h2, h3] at h1
  omega

theorem extract_best (env : Env) (fp : String) (d : DebugInfo) (w : World)
    (hdec : (preprocess_image env fp w).1 = .ok "output/temp_processed.png") :
    (extract_image_ocr env fp d w).1 = .ok ([0, 1, 2, 3].foldl (pick env) ("", -1, "")).1 ∧
    (extract_image_ocr env fp d w).2.1.best_image =
      some (if ([0, 1, 2, 3].foldl (pick env) ("", -1, "")).2.2 ≠ "" then
        ([0, 1, 2, 3].foldl (pick env) ("", -1, "")).2.2 else "output/debug_0_deg.png") := by
  have hb := stateAfter_best env fp d w hdec 4
  rw [range_four] at hb
  rw [extract_eq env fp d w hdec, ← hb]
  exact ⟨rfl, rfl⟩

theorem pick_cases (env : Env) (b : String × Int × String) (i : Nat) :
    (pick env b i = ((attempt env i).1, (attempt env i).2, current_rot_path i) ∧
      b.2.1 < (attempt env i).2 ∧ 20 < (attempt env i).1.utf8ByteSize) ∨
    (pick env b i = b ∧ ((attempt env i).2 ≤ b.2.1 ∨ (attempt env i).1.utf8ByteSize ≤ 20)) := by
  unfold pick
  split_ifs with h
  · exact Or.inl ⟨rfl, h.1, h.2⟩
  · refine Or.inr ⟨rfl, ?_⟩
    by_cases h1 : (attempt env i).2 ≤ b.2.1
    · exact Or.inl h1
    · exact Or.inr (by
        by_contra h2
        exact h ⟨by omega, by omega⟩)

/-- C1, as amended.  Orientation Search selection, with text length counted in bytes.  In a run where `preprocess_image` returned its
`temp_path`: the loop starts from best text "" and best confidence -1; iteration `i` replaces
the best text, confidence and image path by those of attempt `i` exactly when the attempt's
confidence strictly exceeds the best confidence so far and its text has more than 20 bytes
(`std::string::length`); hence, if some attempt has more than 20 bytes and a confidence above
-1, and `k` is the earliest attempt whose confidence is maximal among the attempts with more
than 20 bytes, then `extract_image_ocr` returns the text of attempt `k` and records its
diagnostic path as `best_image`. -/
theorem orientation_search_selects_earliest_maximal (env : Env) (filepath : String) (w : World)
    (hdec : (preprocess_image env filepath w).1 = .ok "output/temp_processed.png") :
    (∀ i, i < 4 →
      ((stateAfter env filepath {} w (i + 1)).best_text,
        (stateAfter env filepath {} w (i + 1)).best_conf,
        (stateAfter env filepath {} w (i + 1)).best_img) =
      if (attempt env i).2 > (stateAfter env filepath {} w i).best_conf ∧
          (attempt env i).1.utf8ByteSize > 20 then
        ((attempt env i).1, (attempt env i).2, current_rot_path i)
      else
        ((stateAfter env filepath {} w i).best_text, (stateAfter env filepath {} w i).best_conf,
          (stateAfter env filepath {} w i).best_img)) ∧
    ((stateAfter env filepath {} w 0).best_text, (stateAfter env filepath {} w 0).best_conf) =
      ("", -1) ∧
    ∀ k, k < 4 → 20 < (attempt env k).1.utf8ByteSize →
      (∃ j, j < 4 ∧ 20 < (attempt env j).1.utf8ByteSize ∧ -1 < (attempt env j).2) →
      (∀ j, j < 4 → 20 < (attempt env j).1.utf8ByteSize → (attempt env j).2 ≤ (attempt env k).2) →
      (∀ j, j < k → 20 < (attempt env j).1.utf8ByteSize → (attempt env j).2 < (attempt env k).2) →
      (extract_image_ocr env filepath {} w).1 = .ok (attempt env k).1 ∧
      (extract_image_ocr env filepath {} w).2.1.best_image = some (current_rot_path k) := by
  refine ⟨fun i _ => ?_, rfl, ?_⟩
  · obtain ⟨hr, f, hf⟩ := stateAfter_alive env filepath {} w hdec i
    rw [stateAfter_succ, iteration_eq env _ _ i f hr hf]
    split_ifs <;> rfl
  · intro k hk hlen hsome hmax hfirst
    have hconf : -1 < (attempt env k).2 := by
      obtain ⟨j, hj, hl, hc⟩ := hsome
      have := hmax j hj hl
      omega
    obtain ⟨h1, h2⟩ := extract_best env filepath {} w hdec
    rw [h1, h2]
    have e0 := current_rot_path_ne_empty 0
    have e1 := current_rot_path_ne_empty 1
    have e2 := current_rot_path_ne_empty 2
    have e3 := current_rot_path_ne_empty 3
    have m0 := not_or_of_imp (hmax 0 (by omega))
    have m1 := not_or_of_imp (hmax 1 (by omega))
    have m2 := not_or_of_imp (hmax 2 (by omega))
    have m3 := not_or_of_imp (hmax 3 (by omega))
    have f0 : 0 < k → _ := fun h => not_or_of_imp (hfirst 0 h)
    have f1 : 1 < k → _ := fun h => not_or_of_imp (hfirst 1 h)
    have f2 : 2 < k → _ := fun h => not_or_of_imp (hfirst 2 h)
    have c0 := pick_cases env ("", -1, "") 0
    have c1 := pick_cases env (pick env ("", -1, "") 0) 1
    have c2 := pick_cases env (pick env (pick env ("", -1, "") 0) 1) 2
    have c3 := pick_cases env (pick env (pick env (pick env ("", -1, "") 0) 1) 2) 3
    simp only [List.foldl_cons, List.foldl_nil]
    generalize pick env (pick env (pick env (pick env ("", -1, "") 0) 1) 2) 3 = r3 at *
    generalize pick env (pick env (pick env ("", -1, "") 0) 1) 2 = r2 at *
    generalize pick env (pick env ("", -1, "") 0) 1 = r1 at *
    generalize pick env ("", -1, "") 0 = r0 at *
    clear h1 h2 hmax hfirst
    interval_cases k <;> simp only [Nat.lt_irrefl, Nat.zero_lt_one, Nat.one_lt_two, Nat.zero_lt_two,
        Nat.zero_lt_succ, false_imp_iff, true_imp_iff, Nat.lt_succ_self, Nat.reduceLT] at f0 f1 f2 <;>
      rcases c0 with ⟨rfl, a0, b0⟩ | ⟨rfl, a0⟩ <;>
      rcases c1 with ⟨rfl, a1, b1⟩ | ⟨rfl, a1⟩ <;>
      rcases c2 with ⟨rfl, a2, b2⟩ | ⟨rfl, a2⟩ <;>
      rcases c3 with ⟨rfl, a3, b3⟩ | ⟨rfl, a3⟩ <;>
      dsimp only at * <;>
      first
        | (exfalso; omega)
        | exact ⟨rfl, by simp only [ne_eq, e0, e1, e2, e3, not_false_eq_true, if_true]⟩

theorem fold_shape (env : Env) :
    [0, 1, 2, 3].foldl (pick env) ("", -1, "") = ("", -1, "") ∨
    ∃ k, k < 4 ∧
      [0, 1, 2, 3].foldl (pick env) ("", -1, "") =
        ((attempt env k).1, (attempt env k).2, current_rot_path k) ∧
      20 < (attempt env k).1.utf8ByteSize ∧ 0 ≤ (attempt env k).2 := by
  have c0 := pick_cases env ("", -1, "") 0
  have c1 := pick_cases env (pick env ("", -1, "") 0) 1
  have c2 := pick_cases env (pick env (pick env ("", -1, "") 0) 1) 2
  have c3 := pick_cases env (pick env (pick env (pick env ("", -1, "") 0) 1) 2) 3
  simp only [List.foldl_cons, List.foldl_nil]
  generalize pick env (pick env (pick env (pick env ("", -1, "") 0) 1) 2) 3 = r3 at *
  generalize pick env (pick env (pick env ("", -1, "") 0) 1) 2 = r2 at *
  generalize pick env (pick env ("", -1, "") 0) 1 = r1 at *
  generalize pick env ("", -1, "") 0 = r0 at *
  rcases c0 with ⟨rfl, a0, b0⟩ | ⟨rfl, a0⟩ <;>
    rcases c1 with ⟨rfl, a1, b1⟩ | ⟨rfl, a1⟩ <;>
    rcases c2 with ⟨rfl, a2, b2⟩ | ⟨rfl, a2⟩ <;>
    rcases c3 with ⟨rfl, a3, b3⟩ | ⟨rfl, a3⟩ <;>
    dsimp only at * <;>
    first
      | exact Or.inl rfl
      | exact Or.inr ⟨0, by omega, rfl, by omega, by omega⟩
      | exact Or.inr ⟨1, by omega, rfl, by omega, by omega⟩
      | exact Or.inr ⟨2, by omega, rfl, by omega, by omega⟩
      | exact Or.inr ⟨3, by omega, rfl, by omega, by omega⟩

/-- C2, as amended.  Fallback of Orientation Search, with text length counted in bytes.  In a run where `preprocess_image` returned its
`temp_path`, if all four attempts give a text of at most 20 bytes, whatever their confidences,
`extract_image_ocr` returns the empty string and records `output/debug_0_deg.png` as
`best_image`. -/
theorem orientation_search_fallback (env : Env) (filepath : String) (w : World)
    (hdec : (preprocess_image env filepath w).1 = .ok "output/temp_processed.png")
    (hshort : ∀ i, i < 4 → (attempt env i).1.utf8ByteSize ≤ 20) :
    (extract_image_ocr env filepath {} w).1 = .ok "" ∧
    (extract_image_ocr env filepath {} w).2.1.best_image = some "output/debug_0_deg.png" := by
  obtain ⟨h1, h2⟩ := extract_best env filepath {} w hdec
  rw [h1, h2]
  rcases fold_shape env with h | ⟨k, hk, _, hlen, _⟩
  · rw [h]
    exact ⟨rfl, rfl⟩
  · have := hshort k hk
    omega

/-- C3, as amended.  Preference for the 0° attempt.  In a run where `preprocess_image`
returned its `temp_path`, if the confidence of the 0° attempt is above -1 and at least that of
each of the other three attempts, and its text has more than 20 bytes, then `extract_image_ocr`
returns the text of the 0° attempt and records `output/debug_0_deg.png` as `best_image`. -/
theorem upright_page_selected (env : Env) (filepath : String) (w : World)
    (hdec : (preprocess_image env filepath w).1 = .ok "output/temp_processed.png")
    (hlen : 20 < (attempt env 0).1.utf8ByteSize) (hconf : -1 < (attempt env 0).2)
    (hmax : ∀ j, j < 4 → (attempt env j).2 ≤ (attempt env 0).2) :
    (extract_image_ocr env filepath {} w).1 = .ok (attempt env 0).1 ∧
    (extract_image_ocr env filepath {} w).2.1.best_image = some "output/debug_0_deg.png" := by
  obtain ⟨h1, h2⟩ := extract_best env filepath {} w hdec
  rw [h1, h2]
  have e0 := current_rot_path_ne_empty 0
  have p0 : current_rot_path 0 = "output/debug_0_deg.png" := by decide
  have m1 := hmax 1 (by omega)
  have m2 := hmax 2 (by omega)
  have m3 := hmax 3 (by omega)
  have c0 := pick_cases env ("", -1, "") 0
  have c1 := pick_cases env (pick env ("", -1, "") 0) 1
  have c2 := pick_cases env (pick env (pick env ("", -1, "") 0) 1) 2
  have c3 := pick_cases env (pick env (pick env (pick env ("", -1, "") 0) 1) 2) 3
  simp only [List.foldl_cons, List.foldl_nil]
  generalize pick env (pick env (pick env (pick env ("", -1, "") 0) 1) 2) 3 = r3 at *
  generalize pick env (pick env (pick env ("", -1, "") 0) 1) 2 = r2 at *
  generalize pick env (pick env ("", -1, "") 0) 1 = r1 at *
  generalize pick env ("", -1, "") 0 = r0 at *
  clear h1 h2 hmax
  rcases c0 with ⟨rfl, a0, b0⟩ | ⟨rfl, a0⟩ <;>
    rcases c1 with ⟨rfl, a1, b1⟩ | ⟨rfl, a1⟩ <;>
    rcases c2 with ⟨rfl, a2, b2⟩ | ⟨rfl, a2⟩ <;>
    rcases c3 with ⟨rfl, a3, b3⟩ | ⟨rfl, a3⟩ <;>
    dsimp only at * <;>
    first
      | (exfalso; omega)
      | exact ⟨rfl, by rw [if_pos e0, p0]⟩

/-- C10. Consistency of the selected result.  In a run where `preprocess_image` returned its
`temp_path`, the text `extract_image_ocr` returns is empty, or it has more than 20 bytes and is
the text of an attempt whose diagnostic path is the recorded `best_image` and whose confidence
is at least 0; and `best_image` is always one of the four diagnostic paths. -/
theorem selected_result_consistent (env : Env) (filepath : String) (w : World)
    (hdec : (preprocess_image env filepath w).1 = .ok "output/temp_processed.png") :
    ∃ text, (extract_image_ocr env filepath {} w).1 = .ok text ∧
      (text = "" ∨
        (20 < text.utf8ByteSize ∧ ∃ k, k < 4 ∧ text = (attempt env k).1 ∧
          (extract_image_ocr env filepath {} w).2.1.best_image = some (current_rot_path k) ∧
          0 ≤ (attempt env k).2)) ∧
      ∃ k, k < 4 ∧
        (extract_image_ocr env filepath {} w).2.1.best_image = some (current_rot_path k) := by
  obtain ⟨h1, h2⟩ := extract_best env filepath {} w hdec
  rw [h1, h2]
  rcases fold_shape env with h | ⟨k, hk, h, hlen, hconf⟩
  · rw [h]
    exact ⟨"", rfl, Or.inl rfl, 0, by omega, rfl⟩
  · rw [h]
    have e := current_rot_path_ne_empty k
    have hb : (if current_rot_path k ≠ "" then current_rot_path k
        else "output/debug_0_deg.png") = current_rot_path k := if_pos e
    exact ⟨_, rfl, Or.inr ⟨hlen, k, hk, rfl, by rw [hb], hconf⟩, k, hk, by rw [hb]⟩

theorem extract_rotations (env : Env) (fp : String) (w : World)
    (hdec : (preprocess_image env fp w).1 = .ok "output/temp_processed.png") :
    (extract_image_ocr env fp {} w).2.1.rotations =
      [("0_deg", { path := some "output/debug_0_deg.png", conf := some (attempt env 0).2 }),
       ("90_deg", { path := some "output/debug_90_deg.png", conf := some (attempt env 1).2 }),
       ("180_deg", { path := some "output/debug_180_deg.png", conf := some (attempt env 2).2 }),
       ("270_deg", { path := some "output/debug_270_deg.png", conf := some (attempt env 3).2 })] := by
  rw [extract_eq env fp {} w hdec]
  simp only [stateAfter_rotations env fp {} w hdec 4, range_four]
  simp [recorded, setRotation, rot_names, current_rot_path]

theorem attempt_failed (env : Env) (i : Nat)
    (hfail : env.tess i = .initFailed ∨ env.tess i = .readFailed) : attempt env i = ("", 0) := by
  unfold attempt run_tesseract
  rcases hfail with h | h <;> rw [h]

/-- C5, as amended.  OCR failure semantics.  In a run where `preprocess_image` returned its
`temp_path`, if at rotation `i` the engine fails to initialise or to read the image, then the
text of the attempt is empty and its confidence is 0, the value `conf` has before the call;
the attempt is recorded under its label with its diagnostic path and confidence 0; the
iteration leaves the best text, confidence and image path as they were; and if `best_image`
names the path of that attempt at the end, it does so as the 0° default of an empty result. -/
theorem failed_attempt_recorded_unselected (env : Env) (filepath : String) (w : World)
    (hdec : (preprocess_image env filepath w).1 = .ok "output/temp_processed.png")
    (i : Nat) (hi : i < 4) (hfail : env.tess i = .initFailed ∨ env.tess i = .readFailed) :
    attempt env i = ("", 0) ∧
    (extract_image_ocr env filepath {} w).2.1.rotation (rot_names.getD i "") =
      some { path := some (current_rot_path i), conf := some 0 } ∧
    ((stateAfter env filepath {} w (i + 1)).best_text,
      (stateAfter env filepath {} w (i + 1)).best_conf,
      (stateAfter env filepath {} w (i + 1)).best_img) =
      ((stateAfter env filepath {} w i).best_text, (stateAfter env filepath {} w i).best_conf,
        (stateAfter env filepath {} w i).best_img) ∧
    ((extract_image_ocr env filepath {} w).2.1.best_image = some (current_rot_path i) →
      i = 0 ∧ (extract_image_ocr env filepath {} w).1 = .ok "") := by
  have ha := attempt_failed env i hfail
  refine ⟨ha, ?_, ?_, ?_⟩
  · have hr := extract_rotations env filepath w hdec
    have h2 : (attempt env i).2 = 0 := by rw [ha]
    interval_cases i <;>
      simp [DebugInfo.rotation, hr, rot_names, current_rot_path, h2]
  · obtain ⟨hr, f, hf⟩ := stateAfter_alive env filepath {} w hdec i
    rw [stateAfter_succ, iteration_eq env _ _ i f hr hf]
    have hl : ¬ ((attempt env i).2 > (stateAfter env filepath {} w i).best_conf ∧
        (attempt env i).1.utf8ByteSize > 20) := by
      rw [ha]
      intro h
      have h0 : ("" : String).utf8ByteSize = 0 := by decide
      have h2 := h.2
      simp only [h0] at h2
      omega
    simp only [hl, if_false]
  · obtain ⟨h1, h2⟩ := extract_best env filepath {} w hdec
    rw [h1, h2]
    have hz : (attempt env i).1.utf8ByteSize = 0 := by rw [ha]; decide
    rcases fold_shape env with h | ⟨k, hk, h, hlen, hconf⟩
    · rw [h]
      intro hp
      refine ⟨?_, rfl⟩
      simp only [ne_eq, not_true_eq_false, if_false, Option.some.injEq] at hp
      interval_cases i <;> first | rfl | (exfalso; revert hp; decide)
    · rw [h]
      intro hp
      exfalso
      rw [if_pos (current_rot_path_ne_empty k)] at hp
      simp only [Option.some.injEq] at hp
      have hki : k = i := by
        interval_cases k <;> interval_cases i <;> first | rfl | (exfalso; revert hp; decide)
      subst hki
      omega

theorem ocrInputs_append (a b : List Event) : ocrInputs (a ++ b) = ocrInputs a ++ ocrInputs b := by
  simp [ocrInputs, List.filterMap_append]

theorem trace_turn (cur : String) (w : World) (i : Nat) :
    (if i = 0 then w else rotate_90 cur cur w).trace = w.trace := by
  by_cases hi : i = 0
  · simp [hi]
  · simp only [hi, if_false, rotate_90]
    cases imread w cur <;> rfl

theorem mem_mapIdx_elim {α β : Type} (f : Nat → α → β) (l : List α) (b : β)
    (h : b ∈ l.mapIdx f) : ∃ i a, a ∈ l ∧ b = f i a := by
  obtain ⟨n, hn, rfl⟩ := List.mem_iff_getElem.mp h
  have hn2 : n < l.length := by simpa using hn
  exact ⟨n, l[n], List.getElem_mem _, by simp⟩

theorem adaptiveThreshold_twoLevel (mean : Nat → Nat → Nat) (src : Mat Nat) :
    TwoLevel (adaptiveThreshold mean src) := by
  intro row hrow v hv
  obtain ⟨y, r, _, rfl⟩ := mem_mapIdx_elim _ _ _ hrow
  obtain ⟨x, a, _, rfl⟩ := mem_mapIdx_elim _ _ _ hv
  split_ifs
  · exact Or.inr rfl
  · exact Or.inl rfl

theorem px_twoLevel (m : Mat Nat) (h : TwoLevel m) (i j : Nat) :
    m.px 255 i j = 0 ∨ m.px 255 i j = 255 := by
  unfold Mat.px
  rw [List.getD_eq_getElem?_getD, List.getD_eq_getElem?_getD]
  cases hi : m[i]? with
  | none => simp
  | some row =>
    have hrow : row ∈ m := List.getElem?_mem hi
    cases hj : row[j]? with
    | none => simp [hj]
    | some v => simpa [hj] using h row hrow v (List.getElem?_mem hj)

theorem erodeTap_twoLevel (m : Mat Nat) (h : TwoLevel m) (y x dy dx : Nat) :
    erodeTap m y x dy dx = 0 ∨ erodeTap m y x dy dx = 255 := by
  unfold erodeTap
  split_ifs
  · exact px_twoLevel m h _ _
  · exact Or.inr rfl

theorem erode_twoLevel (m : Mat Nat) (h : TwoLevel m) : TwoLevel (erode m) := by
  intro row hrow v hv
  obtain ⟨y, r, _, rfl⟩ := mem_mapIdx_elim _ _ _ hrow
  obtain ⟨x, a, _, rfl⟩ := mem_mapIdx_elim _ _ _ hv
  rcases erodeTap_twoLevel m h y x 1 1 with h1 | h1 <;>
    rcases erodeTap_twoLevel m h y x 1 0 with h2 | h2 <;>
    rcases erodeTap_twoLevel m h y x 0 1 with h3 | h3 <;>
    rcases erodeTap_twoLevel m h y x 0 0 with h4 | h4 <;>
    simp [h1, h2, h3, h4]

/-- C8, as amended.  Two-level output of the Image Conditioner.  In a run where
`preprocess_image` returned its `temp_path`, the image it wrote there is a one-channel image
whose every pixel is 0 or 255; so it has at most two distinct pixel values. -/
theorem conditioned_image_two_level (env : Env) (filepath : String) (w : World)
    (hdec : (preprocess_image env filepath w).1 = .ok "output/temp_processed.png") :
    ∃ B, (preprocess_image env filepath w).2.disk "output/temp_processed.png" =
        some (.image (.gray B)) ∧
      (∀ row ∈ B, ∀ v ∈ row, v = 0 ∨ v = 255) ∧
      B.flatten.toFinset.card ≤ 2 := by
  obtain ⟨img, big, h1, h2⟩ := preprocess_decoded env filepath w hdec
  have hB : TwoLevel (conditioned env big) :=
    erode_twoLevel _ (adaptiveThreshold_twoLevel _ _)
  refine ⟨conditioned env big, ?_, hB, ?_⟩
  · rw [preprocess_ok env filepath w img big h1 h2]
    simp [log, imwrite]
  · have hsub : (conditioned env big).flatten.toFinset ⊆ ({0, 255} : Finset Nat) := by
      intro v hv
      simp only [List.mem_toFinset, List.mem_flatten] at hv
      obtain ⟨row, hrow, hv⟩ := hv
      rcases hB row hrow v hv with h | h <;> simp [h]
    exact (Finset.card_le_card hsub).trans (by decide)

/-- C8, counterexample: a blank white page of one pixel.  Under every environment that gives
this page what OpenCV gives it (a uniform ×3 upscale, gray value 255, local means of at most
255), and under `sampleEnv`, all nine pixels of the conditioned image are 255: it has one
distinct pixel value, not two. -/
theorem blank_page_single_level :
    imread sampleWorld "blank.png" = some [[(255, 255, 255)]] ∧
    (preprocess_image (sampleEnv receiptEngine) "blank.png" sampleWorld).2.disk
      "output/temp_processed.png" =
        some (.image (.gray [[255, 255, 255], [255, 255, 255], [255, 255, 255]])) ∧
    ∀ env : Env, env.resize [[(255, 255, 255)]] = some (upscale3 [[(255, 255, 255)]]) →
      env.cvtGray (255, 255, 255) = 255 → (∀ gray y x, env.gaussMean gray y x ≤ 255) →
      (preprocess_image env "blank.png" sampleWorld).2.disk "output/temp_processed.png" =
        some (.image (.gray [[255, 255, 255], [255, 255, 255], [255, 255, 255]])) ∧
      ([[255, 255, 255], [255, 255, 255], [255, 255, 255]] : Mat Nat).flatten.toFinset.card = 1 := by
  refine ⟨by decide, by decide, ?_⟩
  intro env hres hgray hmean
  refine ⟨?_, by decide⟩
  rw [preprocess_ok env "blank.png" sampleWorld _ _ (by decide) hres]
  have hm : ∀ gray y x, ((255 : Int) - (env.gaussMean gray y x : Int) > -15) = True := by
    intro gray y x
    have := hmean gray y x
    simp only [gt_iff_lt, eq_iff_iff, iff_true]
    omega
  have hg : (upscale3 [[(255, 255, 255)]]).map (fun row => row.map env.cvtGray) =
      [[255, 255, 255], [255, 255, 255], [255, 255, 255]] := by
    have hu : upscale3 [[(255, 255, 255)]] =
        [[(255, 255, 255), (255, 255, 255), (255, 255, 255)],
         [(255, 255, 255), (255, 255, 255), (255, 255, 255)],
         [(255, 255, 255), (255, 255, 255), (255, 255, 255)]] := by decide
    rw [hu]
    simp only [List.map, hgray]
  have ht : ∀ mean : Nat → Nat → Nat, (∀ y x, ((255 : Int) - (mean y x : Int) > -15) = True) →
      adaptiveThreshold mean [[255, 255, 255], [255, 255, 255], [255, 255, 255]] =
        [[255, 255, 255], [255, 255, 255], [255, 255, 255]] := by
    intro mean h
    simp only [adaptiveThreshold, List.mapIdx_cons, List.mapIdx_nil, Nat.cast_ofNat, h, if_true]
  have he : erode [[255, 255, 255], [255, 255, 255], [255, 255, 255]] =
      [[255, 255, 255], [255, 255, 255], [255, 255, 255]] := by decide
  have hc : conditioned env (upscale3 [[(255, 255, 255)]]) =
      [[255, 255, 255], [255, 255, 255], [255, 255, 255]] := by
    unfold conditioned
    rw [hg, ht _ (fun y x => hm _ y x), he]
  rw [hc]
  simp [log, imwrite]

theorem tolower_eq (c : Char) : tolower c = c.toLower := by
  unfold tolower Char.toLower
  have h1 : ('A' ≤ c) = (65 ≤ c.toNat) := by
    simp only [Char.le_def, Char.toNat]
    rfl
  have h2 : (c ≤ 'Z') = (c.toNat ≤ 90) := by
    simp only [Char.le_def, Char.toNat]
    rfl
  simp only [h1, h2, ge_iff_le]

theorem lowered_eq_pdf (ext : String) :
    String.mk (ext.data.map tolower) = ".pdf" ↔ equalsIgnoreCase ext ".pdf" := by
  have hfun : tolower = Char.toLower := funext tolower_eq
  have hp : (".pdf" : String).data.map Char.toLower = (".pdf" : String).data := by decide
  unfold equalsIgnoreCase
  rw [hfun, hp]
  constructor
  · intro h
    rw [← h]
  · intro h
    rw [h]

theorem create_directories_ok (env : Env) (w w' : World) (p : String)
    (h : create_directories env w p = .ok w') :
    w'.trace = w.trace ∧ w'.disk p = some .directory ∧ ∀ q, q ≠ p → w'.disk q = w.disk q := by
  unfold create_directories at h
  cases hd : w.disk p with
  | none =>
    rw [hd] at h
    by_cases hm : env.mkdirError p = true
    · simp [hm] at h
    · simp only [hm, Bool.false_eq_true, if_false, Except.ok.injEq] at h
      subst h
      exact ⟨rfl, by simp, fun q hq => by simp [hq]⟩
  | some f =>
    rw [hd] at h
    cases f with
    | directory =>
      simp only [Except.ok.injEq] at h
      subst h
      exact ⟨rfl, hd, fun _ _ => rfl⟩
    | image img => cases h
    | pdf pages => cases h
    | other => cases h

theorem main_pdf (env : Env) (prog file_path : String) (rest : List String) (w w' : World)
    (hex : fsExists env w file_path = .ok true)
    (hdir : create_directories env w "output" = .ok w')
    (hpdf : equalsIgnoreCase (env.extension file_path) ".pdf") :
    main env (prog :: file_path :: rest) w =
      { exit_code := some 0,
        stdout := some [("status", .str "success"), ("method", .str "PDF_POPPLER"),
          ("content", .str (contentOf (extract_pdf file_path w').1)),
          ("filepath", .str file_path), ("debug", .debug {})],
        w := (extract_pdf file_path w').2 } := by
  have h := (lowered_eq_pdf _).mpr hpdf
  unfold main
  simp only [hex, hdir, h, if_true]
  rcases extract_pdf file_path w' with ⟨r, w1⟩
  cases r <;> rfl

theorem main_ocr (env : Env) (prog file_path : String) (rest : List String) (w w' : World)
    (hex : fsExists env w file_path = .ok true)
    (hdir : create_directories env w "output" = .ok w')
    (hpdf : ¬ equalsIgnoreCase (env.extension file_path) ".pdf") :
    main env (prog :: file_path :: rest) w =
      { exit_code := some 0,
        stdout := some [("status", .str "success"), ("method", .str "OCR_THICKENED"),
          ("content", .str (contentOf (extract_image_ocr env file_path {} w').1)),
          ("filepath", .str file_path),
          ("debug", .debug (extract_image_ocr env file_path {} w').2.1)],
        w := (extract_image_ocr env file_path {} w').2.2 } := by
  have h : ¬ String.mk ((env.extension file_path).data.map tolower) = ".pdf" :=
    fun h => hpdf ((lowered_eq_pdf _).mp h)
  unfold main
  simp only [hex, hdir, h, if_false]
  rcases extract_image_ocr env file_path {} w' with ⟨r, d, w1⟩
  cases r <;> rfl

theorem pdfLoads_append (a b : List Event) : pdfLoads (a ++ b) = pdfLoads a ++ pdfLoads b := by
  simp [pdfLoads, List.filterMap_append]

theorem run_tesseract_trace (o : Tess) (p : String) (c : Int) (w : World) :
    ∃ more, (run_tesseract o p c w).2.trace = w.trace ++ more ∧ pdfLoads more = [] := by
  cases o
  · exact ⟨[Event.ocr p (w.disk p), Event.stderr "[CPP-DEBUG] ERROR: Tesseract Init failed."],
      by simp [run_tesseract, log], rfl⟩
  · exact ⟨[Event.ocr p (w.disk p)], rfl, rfl⟩
  · exact ⟨[Event.ocr p (w.disk p)], rfl, rfl⟩

theorem iteration_trace (env : Env) (cur : String) (s : LoopState) (i : Nat) :
    ∃ more, (iteration env cur s i).w.trace = s.w.trace ++ more ∧ pdfLoads more = [] := by
  unfold iteration
  have hW := trace_turn cur s.w i
  generalize (if i = 0 then s.w else rotate_90 cur cur s.w) = W at hW ⊢
  by_cases hr : s.raised = true
  · exact ⟨[], by simp [hr], rfl⟩
  · simp only [hr, Bool.false_eq_true, if_false]
    cases h : imread W cur with
    | none => exact ⟨[], by simp [hW], rfl⟩
    | some temp =>
      obtain ⟨more, hm, hp⟩ := run_tesseract_trace (env.tess i) cur 0
        (imwrite W (current_rot_path i) (.colour temp))
      have ht : (imwrite W (current_rot_path i) (.colour temp)).trace = s.w.trace := hW
      rw [ht] at hm
      refine ⟨more, ?_, hp⟩
      simp only []
      split_ifs <;> exact hm

theorem loop_trace (env : Env) (cur : String) (l : List Nat) (s : LoopState) :
    ∃ more, (l.foldl (iteration env cur) s).w.trace = s.w.trace ++ more ∧ pdfLoads more = [] := by
  induction l generalizing s with
  | nil => exact ⟨[], by simp, rfl⟩
  | cons i l ih =>
    obtain ⟨m1, h1, p1⟩ := iteration_trace env cur s i
    obtain ⟨m2, h2, p2⟩ := ih (iteration env cur s i)
    refine ⟨m1 ++ m2, ?_, ?_⟩
    · rw [List.foldl_cons, h2, h1, List.append_assoc]
    · rw [pdfLoads_append, p1, p2]
      rfl

theorem preprocess_cases (env : Env) (fp : String) (w : World) :
    (imread w fp = none ∧
      preprocess_image env fp w =
        (.ok "", log "ERROR: Could not read image file" (log ("Processing image: " ++ fp) w))) ∨
    (∃ img, imread w fp = some img ∧ env.resize img = none ∧
      preprocess_image env fp w = (.error .thrown, log ("Processing image: " ++ fp) w)) ∨
    (∃ img big, imread w fp = some img ∧ env.resize img = some big ∧
      preprocess_image env fp w =
        (.ok "output/temp_processed.png",
          log "Saved preprocessed image to: output/temp_processed.png"
            (imwrite (log ("Processing image: " ++ fp) w) "output/temp_processed.png"
              (.gray (conditioned env big))))) := by
  have key : imread (log ("Processing image: " ++ fp) w) fp = imread w fp := rfl
  cases h1 : imread w fp with
  | none =>
    left
    refine ⟨rfl, ?_⟩
    unfold preprocess_image
    simp only [key, h1]
  | some img =>
    right
    cases h2 : env.resize img with
    | none =>
      left
      refine ⟨img, rfl, h2, ?_⟩
      unfold preprocess_image
      simp only [key, h1, h2]
    | some big =>
      right
      exact ⟨img, big, rfl, h2, preprocess_ok env fp w img big h1 h2⟩

theorem extract_trace (env : Env) (fp : String) (d : DebugInfo) (w : World) :
    ∃ more, (extract_image_ocr env fp d w).2.2.trace =
        w.trace ++ Event.stderr ("[CPP-DEBUG] " ++ ("Processing image: " ++ fp)) :: more ∧
      pdfLoads more = [] := by
  unfold extract_image_ocr
  rcases preprocess_cases env fp w with ⟨_, h⟩ | ⟨img, _, _, h⟩ | ⟨img, big, _, _, h⟩
  · rw [h]
    exact ⟨[Event.stderr "[CPP-DEBUG] ERROR: Could not read image file"], by simp [log], rfl⟩
  · rw [h]
    exact ⟨[], by simp [log], rfl⟩
  · rw [h]
    obtain ⟨more, hm, hp⟩ := loop_trace env "output/temp_processed.png" [0, 1, 2, 3]
      { w := log "Saved preprocessed image to: output/temp_processed.png"
          (imwrite (log ("Processing image: " ++ fp) w) "output/temp_processed.png"
            (.gray (conditioned env big))),
        debug_info := d, best_text := "", best_conf := -1, best_img := "", raised := false }
    refine ⟨Event.stderr "[CPP-DEBUG] Saved preprocessed image to: output/temp_processed.png"
      :: more, ?_, ?_⟩
    · have hne : ("output/temp_processed.png" : String) ≠ "" := by decide
      simp only [hne, if_false]
      have hm2 := hm.trans (by simp [log, imwrite] :
        _ = w.trace ++ Event.stderr ("[CPP-DEBUG] " ++ ("Processing image: " ++ fp)) ::
          Event.stderr "[CPP-DEBUG] Saved preprocessed image to: output/temp_processed.png" ::
            more)
      split_ifs <;> exact hm2
    · simpa [pdfLoads] using hp

/-- C6, as amended.  Dispatcher routing.  For an input path that `fs::exists` finds and a
run in which `fs::create_directories("output")` returns, leaving the world `w'`: when the
extension equals `.pdf` up to case, `main` calls the PDF reader and nothing else (the only new
event is the load of that path, no line is logged, the disk is that of `w'`, so nothing but
the directory `output` is new, `debug` stays null) and prints the method `PDF_POPPLER` with
what `extract_pdf` returned; for every other extension `main` runs `extract_image_ocr` (the
image conditioner logs its first line, the PDF reader is not called) and prints the method
`OCR_THICKENED` with its text and `debug_info`. -/
theorem dispatcher_routing (env : Env) (prog file_path : String) (rest : List String)
    (w w' : World) (hex : fsExists env w file_path = .ok true)
    (hdir : create_directories env w "output" = .ok w') :
    (equalsIgnoreCase (env.extension file_path) ".pdf" →
      (main env (prog :: file_path :: rest) w).w.trace = w.trace ++ [Event.pdfLoad file_path] ∧
      (main env (prog :: file_path :: rest) w).w.disk = w'.disk ∧
      (∀ q, q ≠ "output" → (main env (prog :: file_path :: rest) w).w.disk q = w.disk q) ∧
      (main env (prog :: file_path :: rest) w).printed "method" = some "PDF_POPPLER" ∧
      (main env (prog :: file_path :: rest) w).printed "content" =
        some (contentOf (extract_pdf file_path w').1) ∧
      ((main env (prog :: file_path :: rest) w).stdout.bind fun out => out.field "debug") =
        some (.debug {})) ∧
    (¬ equalsIgnoreCase (env.extension file_path) ".pdf" →
      (main env (prog :: file_path :: rest) w).w.disk =
        (extract_image_ocr env file_path {} w').2.2.disk ∧
      (main env (prog :: file_path :: rest) w).w.trace =
        (extract_image_ocr env file_path {} w').2.2.trace ∧
      (∃ more, (main env (prog :: file_path :: rest) w).w.trace =
        w.trace ++ Event.stderr ("[CPP-DEBUG] " ++ ("Processing image: " ++ file_path)) :: more) ∧
      pdfLoads (main env (prog :: file_path :: rest) w).w.trace = pdfLoads w.trace ∧
      (main env (prog :: file_path :: rest) w).printed "method" = some "OCR_THICKENED" ∧
      (main env (prog :: file_path :: rest) w).printed "content" =
        some (contentOf (extract_image_ocr env file_path {} w').1) ∧
      ((main env (prog :: file_path :: rest) w).stdout.bind fun out => out.field "debug") =
        some (.debug (extract_image_ocr env file_path {} w').2.1)) := by
  obtain ⟨htr, _, hother⟩ := create_directories_ok env w w' "output" hdir
  constructor
  · intro hpdf
    rw [main_pdf env prog file_path rest w w' hex hdir hpdf]
    have hd : (extract_pdf file_path w').2.disk = w'.disk := by
      unfold extract_pdf
      simp only []
      split <;> try split
      all_goals rfl
    refine ⟨?_, hd, ?_, by simp [Run.printed, Json.field], by simp [Run.printed, Json.field],
      by simp [Json.field]⟩
    · rw [← htr]
      unfold extract_pdf
      simp only []
      split <;> try split
      all_goals rfl
    · intro q hq
      show (extract_pdf file_path w').2.disk q = w.disk q
      rw [hd, hother q hq]
  · intro hpdf
    rw [main_ocr env prog file_path rest w w' hex hdir hpdf]
    obtain ⟨more, hm, hp⟩ := extract_trace env file_path {} w'
    rw [htr] at hm
    refine ⟨rfl, rfl, ⟨more, hm⟩, ?_, by simp [Run.printed, Json.field],
      by simp [Run.printed, Json.field], by simp [Json.field]⟩
    simp only [hm]
    rw [pdfLoads_append]
    simp [pdfLoads, hp]
    simpa [pdfLoads] using hp

set_option maxRecDepth 100000

/-- C1, the scenario of the specification: confidences 10, 5, 92, 15 with text lengths 5, 3,
140, 8 select the 180° attempt. -/
theorem receipt_upside_down_selects_180 :
    (preprocess_image (sampleEnv receiptEngine) "scan.png" sampleWorld).1 =
      .ok "output/temp_processed.png" ∧
    (List.range 4).map (fun i => (attempt (sampleEnv receiptEngine) i).2) = [10, 5, 92, 15] ∧
    (List.range 4).map (fun i => (attempt (sampleEnv receiptEngine) i).1.utf8ByteSize) =
      [5, 3, 140, 8] ∧
    (extract_image_ocr (sampleEnv receiptEngine) "scan.png" {} sampleWorld).1 =
      .ok (attempt (sampleEnv receiptEngine) 2).1 ∧
    (extract_image_ocr (sampleEnv receiptEngine) "scan.png" {} sampleWorld).2.1.best_image =
      some "output/debug_180_deg.png" :=
  ⟨rfl, by decide, by decide,
    (orientation_search_selects_earliest_maximal (sampleEnv receiptEngine) "scan.png" sampleWorld
      rfl).2.2 2 (by decide) (by decide) ⟨2, by decide, by decide, by decide⟩ (by decide)
      (by decide)⟩

/-- C1, counterexample: the text read at 0° has 18 characters, so its length does not exceed
20 characters, and no other text does; it has 23 bytes, and it replaces the empty best text
in the first iteration and is returned. -/
theorem short_accented_text_replaces_best :
    (attempt (sampleEnv accentEngine) 0).1.length = 18 ∧
    (attempt (sampleEnv accentEngine) 0).1.utf8ByteSize = 23 ∧
    (∀ i, i < 4 → (attempt (sampleEnv accentEngine) i).1.length ≤ 20) ∧
    (stateAfter (sampleEnv accentEngine) "scan.png" {} sampleWorld 0).best_text = "" ∧
    (stateAfter (sampleEnv accentEngine) "scan.png" {} sampleWorld 1).best_text =
      "Thé glacé à 2,50 €" ∧
    (stateAfter (sampleEnv accentEngine) "scan.png" {} sampleWorld 1).best_img =
      "output/debug_0_deg.png" ∧
    (extract_image_ocr (sampleEnv accentEngine) "scan.png" {} sampleWorld).1 =
      .ok "Thé glacé à 2,50 €" :=
  ⟨by decide, by decide, by decide, by decide, by decide, by decide, rfl⟩

/-- C2, an instance: scraps of at most 20 bytes at every rotation give the fallback. -/
theorem scraps_give_fallback :
    (∀ i, i < 4 → (attempt (sampleEnv scrapEngine) i).1.utf8ByteSize ≤ 20) ∧
    (extract_image_ocr (sampleEnv scrapEngine) "scan.png" {} sampleWorld).1 = .ok "" ∧
    (extract_image_ocr (sampleEnv scrapEngine) "scan.png" {} sampleWorld).2.1.best_image =
      some "output/debug_0_deg.png" :=
  ⟨by decide,
    orientation_search_fallback (sampleEnv scrapEngine) "scan.png" sampleWorld rfl (by decide)⟩

/-- C2, counterexample: all four texts have at most 20 characters, the one at 90° has 23
bytes; the text returned is not empty and `best_image` is the 90° path, not the 0° path. -/
theorem short_accented_texts_defeat_fallback :
    (preprocess_image (sampleEnv shortAccentEngine) "scan.png" sampleWorld).1 =
      .ok "output/temp_processed.png" ∧
    (List.range 4).map (fun i => (attempt (sampleEnv shortAccentEngine) i).1.length) =
      [16, 19, 3, 8] ∧
    (List.range 4).map (fun i => (attempt (sampleEnv shortAccentEngine) i).1.utf8ByteSize) =
      [20, 23, 3, 8] ∧
    (extract_image_ocr (sampleEnv shortAccentEngine) "scan.png" {} sampleWorld).1 =
      .ok "Crêpe sucrée 4,00 €" ∧
    (extract_image_ocr (sampleEnv shortAccentEngine) "scan.png" {} sampleWorld).2.1.best_image =
      some "output/debug_90_deg.png" :=
  ⟨rfl, by decide, by decide, rfl, by decide⟩

/-- C3, an instance: the upright page wins a tie with the page turned by 90°. -/
theorem upright_page_wins_tie :
    (attempt (sampleEnv uprightEngine) 0).2 = 88 ∧ (attempt (sampleEnv uprightEngine) 1).2 = 88 ∧
    20 < (attempt (sampleEnv uprightEngine) 1).1.utf8ByteSize ∧
    (extract_image_ocr (sampleEnv uprightEngine) "scan.png" {} sampleWorld).1 =
      .ok "TOTAL 9.84 CASH 10.00" ∧
    (extract_image_ocr (sampleEnv uprightEngine) "scan.png" {} sampleWorld).2.1.best_image =
      some "output/debug_0_deg.png" :=
  ⟨by decide, by decide, by decide,
    upright_page_selected (sampleEnv uprightEngine) "scan.png" sampleWorld rfl (by decide)
      (by decide) (by decide)⟩

/-- C3, counterexample: all four confidences are -1, the 0° one is the maximum and its text
has 21 bytes, and the text returned is empty. -/
theorem unscored_upright_page_not_selected :
    (preprocess_image (sampleEnv unscoredEngine) "scan.png" sampleWorld).1 =
      .ok "output/temp_processed.png" ∧
    (∀ j, j < 4 → -1 ≤ (attempt (sampleEnv unscoredEngine) j).2 ∧
      (attempt (sampleEnv unscoredEngine) j).2 ≤ 100) ∧
    (∀ j, j < 4 →
      (attempt (sampleEnv unscoredEngine) j).2 ≤ (attempt (sampleEnv unscoredEngine) 0).2) ∧
    (attempt (sampleEnv unscoredEngine) 0).1.utf8ByteSize = 21 ∧
    (extract_image_ocr (sampleEnv unscoredEngine) "scan.png" {} sampleWorld).1 = .ok "" ∧
    (attempt (sampleEnv unscoredEngine) 0).1 ≠ "" :=
  ⟨rfl, by decide, by decide, by decide, rfl, by decide⟩

/-- C5, an instance: the engine cannot start at 0°; the attempt is recorded with confidence 0
and the best result is not touched. -/
theorem failed_start_recorded_unselected :
    attempt (sampleEnv lateEngine) 0 = ("", 0) ∧
    (extract_image_ocr (sampleEnv lateEngine) "scan.png" {} sampleWorld).2.1.rotation "0_deg" =
      some { path := some "output/debug_0_deg.png", conf := some 0 } ∧
    (extract_image_ocr (sampleEnv lateEngine) "scan.png" {} sampleWorld).2.1.best_image =
      some "output/debug_180_deg.png" :=
  ⟨(failed_attempt_recorded_unselected (sampleEnv lateEngine) "scan.png" sampleWorld rfl 0
      (by decide) (Or.inl rfl)).1,
    (failed_attempt_recorded_unselected (sampleEnv lateEngine) "scan.png" sampleWorld rfl 0
      (by decide) (Or.inl rfl)).2.1,
    by decide⟩

/-- C5, counterexample: the engine cannot start at 0°, and the confidence recorded for that
attempt is 0, not -1. -/
theorem failed_start_confidence_is_not_sentinel :
    lateEngine 0 = .initFailed ∧
    ((extract_image_ocr (sampleEnv lateEngine) "scan.png" {} sampleWorld).2.1.rotation
      "0_deg").bind RotationJson.conf = some 0 ∧
    ((extract_image_ocr (sampleEnv lateEngine) "scan.png" {} sampleWorld).2.1.rotation
      "0_deg").bind RotationJson.conf ≠ some (-1) :=
  ⟨rfl, by decide, by decide⟩

/-- C6, an instance: `invoice.PDF` goes to the PDF reader alone, `scan.png` to the image path. -/
theorem upper_case_pdf_goes_to_reader :
    (sampleEnv receiptEngine).extension "invoice.PDF" = ".PDF" ∧
    (main (sampleEnv receiptEngine) ["docanalyzer", "invoice.PDF"] sampleWorld).w.trace =
      [Event.pdfLoad "invoice.PDF"] ∧
    (main (sampleEnv receiptEngine) ["docanalyzer", "invoice.PDF"] sampleWorld).printed "method" =
      some "PDF_POPPLER" ∧
    (main (sampleEnv receiptEngine) ["docanalyzer", "scan.png"] sampleWorld).printed "method" =
      some "OCR_THICKENED" :=
  ⟨by decide,
    ((dispatcher_routing (sampleEnv receiptEngine) "docanalyzer" "invoice.PDF" [] sampleWorld
      sampleWorldWithOutput rfl rfl).1 (by decide)).1,
    ((dispatcher_routing (sampleEnv receiptEngine) "docanalyzer" "invoice.PDF" [] sampleWorld
      sampleWorldWithOutput rfl rfl).1 (by decide)).2.2.2.1,
    ((dispatcher_routing (sampleEnv receiptEngine) "docanalyzer" "scan.png" [] sampleWorld
      sampleWorldWithOutput rfl rfl).2 (by decide)).2.2.2.2.1⟩

/-- C6, counterexample: a regular file named `output` stands in the working directory.  The
paths `invoice.PDF` and `output` exist, the first has the extension `.PDF` and the second
none, and for both `fs::create_directories("output")` raises outside the `try`: the process
ends with neither the PDF reader nor the image path called and nothing printed. -/
theorem blocked_output_directory_routes_nothing :
    fsExists (sampleEnv receiptEngine) blockedWorld "invoice.PDF" = .ok true ∧
    equalsIgnoreCase ((sampleEnv receiptEngine).extension "invoice.PDF") ".pdf" ∧
    (main (sampleEnv receiptEngine) ["docanalyzer", "invoice.PDF"] blockedWorld).w.trace = [] ∧
    (main (sampleEnv receiptEngine) ["docanalyzer", "invoice.PDF"] blockedWorld).stdout = none ∧
    fsExists (sampleEnv receiptEngine) blockedWorld "output" = .ok true ∧
    ¬ equalsIgnoreCase ((sampleEnv receiptEngine).extension "output") ".pdf" ∧
    (main (sampleEnv receiptEngine) ["docanalyzer", "output"] blockedWorld).w.trace = [] ∧
    (main (sampleEnv receiptEngine) ["docanalyzer", "output"] blockedWorld).stdout = none ∧
    (main (sampleEnv receiptEngine) ["docanalyzer", "output"] blockedWorld).exit_code = none :=
  ⟨rfl, by decide, by decide, by decide, rfl, by decide, by decide, by decide, by decide⟩

/-- C8, an instance: the scan of `sampleDisk` is conditioned to black and white. -/
theorem scan_conditioned_two_level :
    ∃ B, (preprocess_image (sampleEnv receiptEngine) "scan.png" sampleWorld).2.disk
        "output/temp_processed.png" = some (.image (.gray B)) ∧
      (∀ row ∈ B, ∀ v ∈ row, v = 0 ∨ v = 255) ∧ B.flatten.toFinset.card ≤ 2 :=
  conditioned_image_two_level (sampleEnv receiptEngine) "scan.png" sampleWorld rfl

/-- C10, an instance: the receipt scan. -/
theorem receipt_result_consistent :
    ∃ text, (extract_image_ocr (sampleEnv receiptEngine) "scan.png" {} sampleWorld).1 = .ok text ∧
      (text = "" ∨
        (20 < text.utf8ByteSize ∧ ∃ k, k < 4 ∧ text = (attempt (sampleEnv receiptEngine) k).1 ∧
          (extract_image_ocr (sampleEnv receiptEngine) "scan.png" {} sampleWorld).2.1.best_image =
            some (current_rot_path k) ∧
          0 ≤ (attempt (sampleEnv receiptEngine) k).2)) ∧
      ∃ k, k < 4 ∧
        (extract_image_ocr (sampleEnv receiptEngine) "scan.png" {} sampleWorld).2.1.best_image =
          some (current_rot_path k) :=
  selected_result_consistent (sampleEnv receiptEngine) "scan.png" sampleWorld rfl

end DocAnalyzer
